import Mathlib

/-
Verification of `RES_measuring_point.py` (RES_Dashboard).

The single source file defines the class `RESMeasuringPoint`, which
  * validates `res_type` through a property setter (`'wind'` / `'pv'`),
  * finds the nearest weather registry row by minimising a haversine-based
    key with `idxmin` (first index attaining the minimum),
  * downloads per-year weather archives into `tmp/`, extracts and parses
    them, and removes the temporary files,
  * resamples the weather table to the power series' sampling period with
    `resample(...).interpolate()` and inner-merges it with the power series
    on `datetime`.

Timestamps are modelled as natural numbers (seconds since the epoch),
power and weather values as rationals, and the two coordinate arguments of
`haversine` as real numbers.  Filesystem state in
`download_hist_weather_data` is modelled as the list of temporary file
names present, threaded through each statement of the loop body in source
order; a Python `raise` aborts the body at that point, returning the state
reached so far together with the error.
-/

/-! ### res_type property (source lines 41-49) -/

/-- One constructed `RESMeasuringPoint`, reduced to the fields the
`res_type` property touches. -/
structure SiteState where
  name : String
  res_type : String
deriving DecidableEq

/-- Python error values raised by the modelled code. -/
inductive PyErr where
  | valueError
deriving DecidableEq

/-- The membership test of the setter: `res_type in ('wind', 'pv')`. -/
def res_type_ok (v : String) : Bool :=
  v == "wind" || v == "pv"

/-- The `res_type` property setter: raise `ValueError` when the value is
not `'wind'` or `'pv'`, otherwise store it.  The returned pair is
(outcome, object state after the call); on the raising path the stored
field has not been assigned yet. -/
def set_res_type (st : SiteState) (v : String) : Except PyErr Unit × SiteState :=
  if res_type_ok v then (Except.ok (), { st with res_type := v }) else (Except.error PyErr.valueError, st)

/-- Construction: `__init__` ends with `self.res_type = res_type`, which
routes through the same setter, so an invalid value aborts construction. -/
def init_site (nm : String) (v : String) : Except PyErr SiteState :=
  if res_type_ok v then Except.ok ⟨nm, v⟩ else Except.error PyErr.valueError

/-! ### sampling period and the merge (source lines 62-68, `data_collector`) -/

/-- `sampling_period = hist_df['datetime'].iloc[0] - hist_df['datetime'].iloc[1]`
as a signed number of seconds (a pandas `Timedelta` may be negative). -/
def samplingPeriod (hist : List (Nat × ℚ)) : Int :=
  ((hist.headD (0, 0)).1 : Int) - ((hist[1]?.getD ((0 : Nat), (0 : ℚ))).1 : Int)

/-- `pd.merge(hist_df, weather_df, on='datetime')`: an inner join on the
timestamp.  Each power row is paired with every weather row carrying the
same timestamp, in left-row order. -/
def innerMerge (hist : List (Nat × ℚ)) (weather : List (Nat × Option ℚ)) :
    List (Nat × ℚ × Option ℚ) :=
  hist.flatMap (fun h => (weather.filter (fun w => w.1 == h.1)).map (fun w => (h.1, h.2, w.2)))

/-! ### resample(...).interpolate() (source line 63) -/

/-- Value of the weather table at exactly timestamp `t`, if a row with
that index exists (`asfreq` semantics of the upsampling step). -/
def lookupObs (obs : List (Nat × ℚ)) (t : Nat) : Option ℚ :=
  (obs.find? (fun o => o.1 == t)).map (fun o => o.2)

/-- Scan for the first present value, returning its offset and the value. -/
def firstSomeIdx : List (Option ℚ) → Option (Nat × ℚ)
  | [] => none
  | some v :: _ => some (0, v)
  | none :: rest => (firstSomeIdx rest).map (fun q => (q.1 + 1, q.2))

/-- `DataFrame.interpolate()` (method `'linear'`, default forward limit
direction) at position `i` of the column `vs`: a present value is kept;
a missing value is filled linearly between the nearest present values
before and after it; a missing value with no present predecessor is left
missing; one with no present successor repeats the last present value. -/
def fillAt (vs : List (Option ℚ)) (i : Nat) : Option ℚ :=
  match vs.getD i none with
  | some v => some v
  | none =>
    match firstSomeIdx ((vs.take i).reverse), firstSomeIdx (vs.drop (i + 1)) with
    | some q, some r =>
        some (q.2 + (r.2 - q.2) * ((q.1 : ℚ) + 1) / (((q.1 : ℚ) + 1) + ((r.1 : ℚ) + 1)))
    | some q, none => some q.2
    | none, _ => none

/-- First bin label of `resample` for a series starting at `t0`: `t0`
floored to a multiple of the period `p` anchored at midnight of the first
day (pandas origin `'start_day'` for tick frequencies). -/
def gridStart (t0 p : Nat) : Nat :=
  t0 / 86400 * 86400 + (t0 - t0 / 86400 * 86400) / p * p

/-- The resampled index: bin labels every `p` seconds from `gridStart` up
to the last original timestamp (the binner never extends past it). -/
def resampleGrid (obs : List (Nat × ℚ)) (p : Nat) : List Nat :=
  match obs with
  | [] => []
  | o :: rest =>
    let g0 := gridStart o.1 p
    let tL := ((o :: rest).getLastD o).1
    (List.range ((tL - g0) / p + 1)).map (fun k => g0 + k * p)

/-- `weather.resample(pS).interpolate()`: take the value at each bin label
that coincides with an original row (`asfreq`), then interpolate the
missing positions. -/
def resampleInterp (obs : List (Nat × ℚ)) (p : Nat) : List (Nat × Option ℚ) :=
  let grid := resampleGrid obs p
  let vs := grid.map (lookupObs obs)
  grid.zip ((List.range grid.length).map (fillAt vs))

/-- `data_collector` (lines 62-68): derive the sampling period from the
first two power timestamps, resample the weather table to it and
inner-merge on the timestamp.  `resample` raises on a non-positive
frequency string, modelled as `none`. -/
def data_collector (hist : List (Nat × ℚ)) (weather : List (Nat × ℚ)) :
    Option (List (Nat × ℚ × Option ℚ)) :=
  let sp := samplingPeriod hist
  if sp ≤ 0 then none
  else some (innerMerge hist (resampleInterp weather sp.toNat))

/-! ### year range (source lines 100-101) -/

/-- Python's `range(a, b)` on naturals: `[a, a+1, ..., b-1]`, empty when
`b ≤ a`. -/
def pyRange (a b : Nat) : List Nat :=
  (List.range (b - a)).map (a + ·)

/-- `years = [year for year in range(hist['datetime'].iloc[-1].year,
hist['datetime'].iloc[0].year)]`, applied to the list of the `.year`
fields of the power timestamps in source order. -/
def download_years (histYears : List Nat) : List Nat :=
  pyRange (histYears.getLastD 0) (histYears.headD 0)

/-! ### temporary files of `download_hist_weather_data` (lines 104-131) -/

/-- Outcomes of the three external effects of one loop iteration: the
HTTP request (`r.ok` and `r.status_code`), the zip extraction and the
csv parse. -/
structure ArchiveEnv where
  fetch_ok : Bool
  status : Nat
  unzip_ok : Bool
  read_ok : Bool
deriving DecidableEq

/-- Errors surfacing from one loop iteration. -/
inductive ArchiveErr where
  | fetch (status : Nat)
  | badZip
  | badCsv
deriving DecidableEq

/-- `f'tmp/{year}_{code}_s.zip'`. -/
def zip_file (year : Nat) (code : String) : String :=
  "tmp/" ++ toString year ++ "_" ++ code ++ "_s.zip"

/-- `f'tmp/s_t_{code}_{year}.csv'`. -/
def csv_file (year : Nat) (code : String) : String :=
  "tmp/s_t_" ++ code ++ "_" ++ toString year ++ ".csv"

/-- One iteration of the download loop over the temporary directory,
statement by statement: check `r.ok` (raise before any file is written),
write the zip (create or overwrite), extract the csv, parse it, and only
then `os.remove` the zip and the csv.  The returned list is the set of
temporary files present when the body exits, normally or by `raise`. -/
def download_year (env : ArchiveEnv) (year : Nat) (code : String) (fs : List String) :
    Except ArchiveErr Unit × List String :=
  if env.fetch_ok = false then (Except.error (ArchiveErr.fetch env.status), fs)
  else
    let fs1 := zip_file year code :: fs.erase (zip_file year code)
    if env.unzip_ok = false then (Except.error ArchiveErr.badZip, fs1)
    else
      let fs2 := csv_file year code :: fs1.erase (csv_file year code)
      if env.read_ok = false then (Except.error ArchiveErr.badCsv, fs2)
      else (Except.ok (), (fs2.erase (zip_file year code)).erase (csv_file year code))

/-! ### haversine and the nearest-station lookup (lines 70-94) -/

/-- Decimal degrees to radians, `math.radians`. -/
noncomputable def deg2rad (x : ℝ) : ℝ :=
  x * (Real.pi / 180)

/-- `haversine(lon1, lat1, lon2, lat2)` (lines 79-94):
`a = sin(dlat/2)**2 + cos(lat1)*cos(lat2)*sin(dlon/2)**2`,
`c = 2*asin(sqrt(a))`, returns `c * 6371` kilometres. -/
noncomputable def haversine (lon1 lat1 lon2 lat2 : ℝ) : ℝ :=
  2 * Real.arcsin (Real.sqrt
      (Real.sin ((deg2rad lat2 - deg2rad lat1) / 2) ^ 2 +
        Real.cos (deg2rad lat1) * Real.cos (deg2rad lat2) *
          Real.sin ((deg2rad lon2 - deg2rad lon1) / 2) ^ 2)) * 6371

/-- One row of the station registry spreadsheet. -/
structure StationRecord where
  code : String
  lat : ℝ
  lon : ℝ

/-- The quantity minimised by `find_nearest_meteo_station`:
`self.haversine(x['lat'], x['lon'], self.__lon, self.__lat)` — note the
registry row's latitude is passed as `lon1` and its longitude as `lat1`. -/
noncomputable def stationKey (lon lat : ℝ) (s : StationRecord) : ℝ :=
  haversine s.lat s.lon lon lat

/-- `Series.idxmin` followed by `iloc`: the first element attaining the
minimal key (a later element replaces the current best only when its key
is strictly smaller). -/
noncomputable def idxminBy (f : StationRecord → ℝ) : StationRecord → List StationRecord → StationRecord
  | best, [] => best
  | best, s :: rest => if f s < f best then idxminBy f s rest else idxminBy f best rest

/-- `find_nearest_meteo_station` (lines 70-77) over an explicit registry:
return the first row minimising `stationKey`; an empty registry has no
row (`idxmin` on an empty series raises). -/
noncomputable def find_nearest (lon lat : ℝ) : List StationRecord → Option StationRecord
  | [] => none
  | s :: rest => some (idxminBy (stationKey lon lat) s rest)

/-! ## Supporting lemmas -/

/-- With pairwise-distinct timestamps, filtering the weather table by one
key keeps one row when the key is present and none otherwise. -/
theorem filter_key_length (k : Nat) (w : List (Nat × Option ℚ))
    (hnd : (w.map (fun x => x.1)).Nodup) :
    (w.filter (fun x => x.1 == k)).length =
      if k ∈ w.map (fun x => x.1) then 1 else 0 := by
  induction w with
  | nil => simp
  | cons a t ih =>
    simp only [List.map_cons, List.nodup_cons] at hnd
    obtain ⟨ha, ht⟩ := hnd
    rw [List.filter_cons]
    by_cases h : a.1 = k
    · subst h
      have h0 : (t.filter (fun x => x.1 == a.1)).length = 0 := by
        rw [ih ht, if_neg ha]
      simp [h0]
    · have hb : (a.1 == k) = false := by simp [h]
      have hne : ¬ k = a.1 := fun hk => h hk.symm
      rw [hb]
      simp only [Bool.false_eq_true, if_false, ih ht, List.map_cons, List.mem_cons]
      simp only [or_iff_right hne]

/-- The membership test `weather.any` agrees with key membership. -/
theorem any_key_iff (k : Nat) (w : List (Nat × Option ℚ)) :
    (w.any (fun x => x.1 == k) = true) ↔ k ∈ w.map (fun x => x.1) := by
  simp [List.any_eq_true, List.mem_map, beq_iff_eq]

/-! ## Claims -/

/-- Claim C5 (counterexample): for the ascending power series with first
two timestamps 0 and 900 the code's sampling period is the signed value
-900, not the absolute difference 900, and it is not positive. -/
theorem c5_counterexample :
    samplingPeriod [(0, (1 : ℚ)), (900, 2)] = -900 ∧
      ¬ 0 < samplingPeriod [(0, (1 : ℚ)), (900, 2)] := by
  constructor
  · rfl
  · decide

/-- Claim C5 (amended): the sampling period is the signed difference of
the first two power timestamps, with no absolute value taken: it is
positive exactly when the series is stored latest-first and negative when
the series is ascending. -/
theorem c5_period_amended (a b : Nat × ℚ) (rest : List (Nat × ℚ)) :
    samplingPeriod (a :: b :: rest) = (a.1 : Int) - (b.1 : Int) ∧
      (b.1 < a.1 → 0 < samplingPeriod (a :: b :: rest)) ∧
      (a.1 < b.1 → samplingPeriod (a :: b :: rest) < 0) := by
  refine ⟨by simp [samplingPeriod], ?_, ?_⟩ <;> intro h <;> simp [samplingPeriod] <;> omega

/-- Claim C5 witness: a concrete descending series has a positive period. -/
theorem c5_period_witness :
    0 < samplingPeriod [(900, (1 : ℚ)), (0, 2)] :=
  (c5_period_amended (900, 1) (0, 2) []).2.1 (by decide)

/-- Claim C3 (code bug): for a power series stored latest-first whose
timestamps span the years 2018 and 2019, the code computes
`range(2018, 2019) = [2018]` and never fetches the boundary year 2019,
though the claim requires both boundary years. -/
theorem c3_year_range_excludes_boundary :
    download_years [2019, 2018] = [2018] ∧
      2019 ∉ download_years [2019, 2018] := by
  constructor
  · rfl
  · decide

/-- Claim C9: `res_type` is validated through the property setter both at
construction and on later assignment: any value other than `'wind'` or
`'pv'` raises `ValueError` (the spec's ValidationError), the two enum
values succeed. -/
theorem c9_res_type_validated (nm v : String) (st : SiteState) :
    (¬(v = "wind" ∨ v = "pv") →
        init_site nm v = Except.error PyErr.valueError ∧
          (set_res_type st v).1 = Except.error PyErr.valueError) ∧
      ((v = "wind" ∨ v = "pv") →
        init_site nm v = Except.ok ⟨nm, v⟩ ∧
          (set_res_type st v).1 = Except.ok ()) := by
  have hok : res_type_ok v = true ↔ (v = "wind" ∨ v = "pv") := by
    simp [res_type_ok]
  constructor
  · intro h
    have hf : res_type_ok v = false := by
      cases hb : res_type_ok v
      · rfl
      · exact absurd (hok.mp hb) h
    constructor <;> simp [init_site, set_res_type, hf]
  · intro h
    have htr : res_type_ok v = true := hok.mpr h
    constructor <;> simp [init_site, set_res_type, htr]

/-- Claim C9 witness: `'solar'` is rejected, `'wind'` and `'pv'` accepted,
at construction and at reassignment. -/
theorem c9_res_type_witness :
    init_site "x" "solar" = Except.error PyErr.valueError ∧
      init_site "x" "wind" = Except.ok ⟨"x", "wind"⟩ ∧
      init_site "x" "pv" = Except.ok ⟨"x", "pv"⟩ ∧
      (set_res_type ⟨"x", "wind"⟩ "solar").1 = Except.error PyErr.valueError :=
  ⟨((c9_res_type_validated "x" "solar" ⟨"x", "wind"⟩).1 (by decide)).1,
    ((c9_res_type_validated "x" "wind" ⟨"x", "wind"⟩).2 (Or.inl rfl)).1,
    ((c9_res_type_validated "x" "pv" ⟨"x", "wind"⟩).2 (Or.inr rfl)).1,
    ((c9_res_type_validated "x" "solar" ⟨"x", "wind"⟩).1 (by decide)).2⟩

/-- Claim C10: the setter checks before it assigns, so a failed
reassignment raises and leaves the whole stored state (in particular the
previously stored `res_type`) unchanged. -/
theorem c10_setter_atomic (st : SiteState) (v : String)
    (h : res_type_ok v = false) :
    set_res_type st v = (Except.error PyErr.valueError, st) := by
  simp [set_res_type, h]

/-- Claim C10 witness: reassigning `'solar'` over a stored `'wind'` fails
and the state is untouched. -/
theorem c10_setter_atomic_witness :
    set_res_type ⟨"x", "wind"⟩ "solar" = (Except.error PyErr.valueError, ⟨"x", "wind"⟩) :=
  c10_setter_atomic ⟨"x", "wind"⟩ "solar" (by decide)

/-- Claim C4 (counterexample): when the zip extraction fails, the loop
body raises with the downloaded zip still present in the temporary
directory — the cleanup lines are only reached after a successful parse. -/
theorem c4_counterexample :
    (download_year ⟨true, 200, false, true⟩ 2018 "X" []).1 = Except.error ArchiveErr.badZip ∧
      zip_file 2018 "X" ∈ (download_year ⟨true, 200, false, true⟩ 2018 "X" []).2 := by
  constructor
  · rfl
  · decide

/-- Claim C4 (amended): temporary files are removed only on the successful
path; the fetch-failure path creates none; decompression or parse failures
leave the created zip (and csv) behind. -/
theorem c4_cleanup_amended (env : ArchiveEnv) (year : Nat) (code : String)
    (fs : List String)
    (hz : zip_file year code ∉ fs) (hc : csv_file year code ∉ fs)
    (hne : zip_file year code ≠ csv_file year code) :
    (env.fetch_ok = false → (download_year env year code fs).2 = fs) ∧
      (env.fetch_ok = true → env.unzip_ok = true → env.read_ok = true →
        (download_year env year code fs).2 = fs) ∧
      (env.fetch_ok = true → env.unzip_ok = false →
        (download_year env year code fs).2 = zip_file year code :: fs) ∧
      (env.fetch_ok = true → env.unzip_ok = true → env.read_ok = false →
        (download_year env year code fs).2 =
          csv_file year code :: zip_file year code :: fs) := by
  have ez : fs.erase (zip_file year code) = fs := List.erase_of_not_mem hz
  have ec : fs.erase (csv_file year code) = fs := List.erase_of_not_mem hc
  have e1 : (zip_file year code :: fs).erase (csv_file year code) = zip_file year code :: fs := by
    rw [List.erase_cons_tail (by simp only [beq_iff_eq]; exact hne), ec]
  have e2 : (csv_file year code :: zip_file year code :: fs).erase (zip_file year code)
      = csv_file year code :: fs := by
    rw [List.erase_cons_tail (by simp only [beq_iff_eq]; exact Ne.symm hne),
      List.erase_cons_head]
  refine ⟨?_, ?_, ?_, ?_⟩
  · intro h1
    simp [download_year, h1]
  · intro h1 h2 h3
    simp only [download_year, h1, h2, h3, Bool.true_eq_false, if_false, ez, e1, e2,
      List.erase_cons_head]
  · intro h1 h2
    simp [download_year, h1, h2, ez]
  · intro h1 h2 h3
    simp only [download_year, h1, h2, h3, Bool.true_eq_false, if_false, if_true, ez, e1]

/-- Claim C4 witness: on the all-success path, starting from a temporary
directory not containing the two names, no temporary file remains. -/
theorem c4_cleanup_witness :
    (download_year ⟨true, 200, true, true⟩ 2018 "X" []).2 = [] :=
  ((c4_cleanup_amended ⟨true, 200, true, true⟩ 2018 "X" []
    (by simp) (by simp) (by decide)).2.1) rfl rfl rfl

/-- Claim C2 (counterexample): a two-sample power series whose timestamps
miss the resampled weather grid fuses to an empty table — the inner merge
drops power samples without a weather match, so the fused count 0 differs
from the power count 2. -/
theorem c2_counterexample :
    data_collector [(1000, (1 : ℚ)), (100, 2)] [(0, 5), (900, 7)] = some [] ∧
      ([(1000, (1 : ℚ)), (100, 2)] : List (Nat × ℚ)).length = 2 := by
  constructor
  · decide
  · rfl

/-- Claim C2 (amended): when the aligned weather table has pairwise
distinct timestamps, the merge produces exactly one row per power sample
whose timestamp occurs in it — power samples without a match are dropped,
so the fused count equals the matched-sample count, not always the full
power count. -/
theorem c2_merge_count_amended (hist : List (Nat × ℚ)) (weather : List (Nat × Option ℚ))
    (hnd : (weather.map (fun x => x.1)).Nodup) :
    (innerMerge hist weather).length =
      (hist.filter (fun h => weather.any (fun w => w.1 == h.1))).length := by
  induction hist with
  | nil => rfl
  | cons h t ih =>
    rw [innerMerge, List.flatMap_cons, List.length_append, List.length_map, List.filter_cons]
    have hlen := filter_key_length h.1 weather hnd
    by_cases hm : h.1 ∈ weather.map (fun x => x.1)
    · rw [if_pos ((any_key_iff h.1 weather).mpr hm)] at *
      rw [hlen, if_pos hm, List.length_cons]
      have := ih
      rw [innerMerge] at this
      rw [this]
      omega
    · have hb : (weather.any (fun w => w.1 == h.1)) = false := by
        cases hA : weather.any (fun w => w.1 == h.1)
        · rfl
        · exact absurd ((any_key_iff h.1 weather).mp hA) hm
      rw [hb]
      simp only [Bool.false_eq_true, if_false]
      rw [hlen, if_neg hm]
      have := ih
      rw [innerMerge] at this
      rw [this]
      omega

/-- Claim C2 witness: with a matched timestamp the merged length equals
the matched count. -/
theorem c2_merge_count_witness :
    (innerMerge [(0, (1 : ℚ))] [(0, some 5)]).length =
      (([(0, (1 : ℚ))] : List (Nat × ℚ)).filter
        (fun h => ([((0 : Nat), some (5 : ℚ))] : List (Nat × Option ℚ)).any
          (fun w => w.1 == h.1))).length :=
  c2_merge_count_amended [(0, 1)] [(0, some 5)] (by simp)

/-- Unpacking membership of a zipped pair into a common index. -/
theorem zip_mem_getElem {l1 : List Nat} {l2 : List (Option ℚ)} {x : Nat × Option ℚ}
    (hx : x ∈ l1.zip l2) :
    ∃ i, ∃ (h1 : i < l1.length) (h2 : i < l2.length), l1[i] = x.1 ∧ l2[i] = x.2 := by
  obtain ⟨i, hi, he⟩ := List.mem_iff_getElem.mp hx
  rw [List.length_zip] at hi
  have h1 : i < l1.length := lt_of_lt_of_le hi inf_le_left
  have h2 : i < l2.length := lt_of_lt_of_le hi inf_le_right
  refine ⟨i, h1, h2, ?_, ?_⟩
  · rw [← he, List.getElem_zip]
  · rw [← he, List.getElem_zip]

/-- In a table with strictly increasing timestamps, every timestamp is at
least the first one. -/
theorem head_key_le {o : Nat × ℚ} {rest : List (Nat × ℚ)}
    (hs : List.Pairwise (fun a b : Nat × ℚ => a.1 < b.1) (o :: rest)) :
    ∀ x ∈ o :: rest, o.1 ≤ x.1 := by
  intro x hx
  rcases List.mem_cons.mp hx with h | h
  · rw [h]
  · exact le_of_lt ((List.pairwise_cons.mp hs).1 x h)

/-- No row of a sorted table carries a timestamp below the first one. -/
theorem lookupObs_eq_none {o : Nat × ℚ} {rest : List (Nat × ℚ)} {t : Nat}
    (hs : List.Pairwise (fun a b : Nat × ℚ => a.1 < b.1) (o :: rest))
    (ht : t < o.1) : lookupObs (o :: rest) t = none := by
  rw [lookupObs, List.find?_eq_none.mpr, Option.map_none']
  intro x hx
  simp only [beq_iff_eq]
  intro hxt
  exact absurd (hxt ▸ head_key_le hs x hx) (Nat.not_le_of_lt ht)

/-- Looking up a present timestamp of a sorted table yields its value. -/
theorem lookupObs_mem {obs : List (Nat × ℚ)} {t : Nat} {w : ℚ}
    (hs : List.Pairwise (fun a b : Nat × ℚ => a.1 < b.1) obs)
    (hm : (t, w) ∈ obs) : lookupObs obs t = some w := by
  induction obs with
  | nil => simp at hm
  | cons a rest ih =>
    by_cases ha : a.1 = t
    · have : a = (t, w) := by
        rcases List.mem_cons.mp hm with h | h
        · exact h.symm
        · exact absurd (ha ▸ (List.pairwise_cons.mp hs).1 (t, w) h) (lt_irrefl t)
      rw [lookupObs, List.find?_cons_of_pos _ (by simp [ha]), this]
      rfl
    · have hm' : (t, w) ∈ rest := by
        rcases List.mem_cons.mp hm with h | h
        · exact absurd (congrArg Prod.fst h.symm) ha
        · exact h
      rw [lookupObs, List.find?_cons_of_neg _ (by simp [ha])]
      exact ih (List.pairwise_cons.mp hs).2 hm'

/-- A scan over an all-missing column finds nothing. -/
theorem firstSomeIdx_eq_none {l : List (Option ℚ)} (h : ∀ x ∈ l, x = none) :
    firstSomeIdx l = none := by
  induction l with
  | nil => rfl
  | cons a t ih =>
    cases ha : a with
    | some v => exact absurd (h a (List.mem_cons_self a t)) (by simp [ha])
    | none =>
      rw [firstSomeIdx, ih (fun x hx => h x (List.mem_cons_of_mem a hx))]
      rfl

/-- Interpolation keeps a present value unchanged. -/
theorem fillAt_some {vs : List (Option ℚ)} {i : Nat} {v : ℚ}
    (h : vs.getD i none = some v) : fillAt vs i = some v := by
  rw [fillAt, h]

/-- A missing value with no present value before it stays missing. -/
theorem fillAt_leading_none {vs : List (Option ℚ)} {i : Nat}
    (h0 : vs.getD i none = none) (hb : ∀ x ∈ vs.take i, x = none) :
    fillAt vs i = none := by
  rw [fillAt, h0, firstSomeIdx_eq_none (fun x hx => hb x (List.mem_reverse.mp hx))]

/-- The first bin label does not exceed the first timestamp. -/
theorem gridStart_le (t0 p : Nat) : gridStart t0 p ≤ t0 := by
  rw [gridStart]
  calc t0 / 86400 * 86400 + (t0 - t0 / 86400 * 86400) / p * p
      ≤ t0 / 86400 * 86400 + (t0 - t0 / 86400 * 86400) :=
        Nat.add_le_add_left (Nat.div_mul_le_self _ _) _
    _ = t0 := Nat.add_sub_cancel' (Nat.div_mul_le_self _ _)

/-- Claim C6: resampling with interpolation never invents values outside
the span of the original observations: a resampled row strictly before
the first original timestamp has a missing value, and no resampled row
lies strictly after the last original timestamp. -/
theorem c6_no_extrapolation (obs : List (Nat × ℚ)) (p : Nat)
    (hs : List.Pairwise (fun a b : Nat × ℚ => a.1 < b.1) obs) :
    ∀ gv ∈ resampleInterp obs p,
      (gv.1 < (obs.headD (0, 0)).1 ∨ (obs.getLastD (0, 0)).1 < gv.1) → gv.2 = none := by
  intro gv hgv hout
  cases obs with
  | nil => simp [resampleInterp, resampleGrid] at hgv
  | cons o rest =>
    simp only [resampleInterp] at hgv
    obtain ⟨i, h1, h2, hx1, hx2⟩ := zip_mem_getElem hgv
    have hgrid : resampleGrid (o :: rest) p =
        (List.range ((((o :: rest).getLastD o).1 - gridStart o.1 p) / p + 1)).map
          (fun k => gridStart o.1 p + k * p) := rfl
    have hlen : (resampleGrid (o :: rest) p).length =
        (((o :: rest).getLastD o).1 - gridStart o.1 p) / p + 1 := by
      rw [hgrid, List.length_map, List.length_range]
    have hval : ∀ (j : Nat) (hj : j < (resampleGrid (o :: rest) p).length),
        (resampleGrid (o :: rest) p)[j] = gridStart o.1 p + j * p := by
      intro j hj
      simp only [hgrid, List.getElem_map, List.getElem_range]
    have hgv1 : gv.1 = gridStart o.1 p + i * p := by
      rw [← hx1, hval i h1]
    simp only [List.getElem_map, List.getElem_range] at hx2
    have htL : o.1 ≤ ((o :: rest).getLastD o).1 := by
      refine head_key_le hs _ ?_
      rw [List.getLastD_cons]
      exact List.getLastD_mem_cons rest o
    have hg0 : gridStart o.1 p ≤ o.1 := gridStart_le o.1 p
    rcases hout with hbefore | hafter
    · -- the bin label lies strictly before the first observation
      simp only [List.headD_cons] at hbefore
      have hvs : ∀ (j : Nat)
          (hj : j < ((resampleGrid (o :: rest) p).map (lookupObs (o :: rest))).length),
          j ≤ i → ((resampleGrid (o :: rest) p).map (lookupObs (o :: rest)))[j] = none := by
        intro j hj hji
        have hj' : j < (resampleGrid (o :: rest) p).length := by
          rw [List.length_map] at hj
          exact hj
        rw [List.getElem_map, hval j hj']
        refine lookupObs_eq_none hs ?_
        have : j * p ≤ i * p := Nat.mul_le_mul_right p hji
        calc gridStart o.1 p + j * p ≤ gridStart o.1 p + i * p := Nat.add_le_add_left this _
          _ = gv.1 := hgv1.symm
          _ < o.1 := hbefore
      have hiv : i < ((resampleGrid (o :: rest) p).map (lookupObs (o :: rest))).length := by
        rw [List.length_map]
        exact h1
      have hD : ((resampleGrid (o :: rest) p).map (lookupObs (o :: rest))).getD i none = none := by
        rw [List.getD_eq_getElem _ _ hiv]
        exact hvs i hiv (le_refl i)
      have hbef : ∀ x ∈ ((resampleGrid (o :: rest) p).map (lookupObs (o :: rest))).take i,
          x = none := by
        intro x hx
        obtain ⟨j, hj, he⟩ := List.mem_iff_getElem.mp hx
        have hjt := hj
        rw [List.length_take] at hjt
        have hji : j < i := lt_of_lt_of_le hjt inf_le_left
        have hj' : j < ((resampleGrid (o :: rest) p).map (lookupObs (o :: rest))).length :=
          lt_of_lt_of_le hjt inf_le_right
        rw [List.getElem_take] at he
        rw [← he]
        exact hvs j hj' (le_of_lt hji)
      rw [← hx2]
      exact fillAt_leading_none hD hbef
    · -- no bin label lies strictly after the last observation
      exfalso
      simp only [List.getLastD_cons] at hafter
      have hi' : i ≤ ((rest.getLastD o).1 - gridStart o.1 p) / p := by
        rw [hlen, List.getLastD_cons] at h1
        exact Nat.lt_succ_iff.mp h1
      have him : i * p ≤ (rest.getLastD o).1 - gridStart o.1 p :=
        le_trans (Nat.mul_le_mul_right p hi') (Nat.div_mul_le_self _ _)
      rw [List.getLastD_cons] at htL
      have hle : gv.1 ≤ (rest.getLastD o).1 := by
        rw [hgv1]
        generalize hm : i * p = m at him
        omega
      exact absurd hafter (Nat.not_lt_of_le hle)

/-- Claim C7: at a resampled timestamp coinciding exactly with an original
observation, the interpolated value equals the original value. -/
theorem c7_idempotent_on_grid (obs : List (Nat × ℚ)) (p : Nat)
    (hs : List.Pairwise (fun a b : Nat × ℚ => a.1 < b.1) obs) :
    ∀ gv ∈ resampleInterp obs p, ∀ w : ℚ, (gv.1, w) ∈ obs → gv.2 = some w := by
  intro gv hgv w hw
  cases obs with
  | nil => simp at hw
  | cons o rest =>
    simp only [resampleInterp] at hgv
    obtain ⟨i, h1, h2, hx1, hx2⟩ := zip_mem_getElem hgv
    simp only [List.getElem_map, List.getElem_range] at hx2
    have hiv : i < ((resampleGrid (o :: rest) p).map (lookupObs (o :: rest))).length := by
      rw [List.length_map]
      exact h1
    have hD : ((resampleGrid (o :: rest) p).map (lookupObs (o :: rest))).getD i none = some w := by
      rw [List.getD_eq_getElem _ _ hiv, List.getElem_map, hx1]
      exact lookupObs_mem hs hw
    rw [← hx2]
    exact fillAt_some hD

/-- Claim C6 witness: the bin label 900 of a series starting at 1000 with
period 900 lies before the first observation and stays missing. -/
theorem c6_no_extrapolation_witness :
    ((900 : Nat), (none : Option ℚ)).2 = none :=
  c6_no_extrapolation [(1000, 5), (1800, 7)] 900 (by decide) (900, none) (by decide)
    (Or.inl (by decide))

/-- Claim C7 witness: the resampled row at the original timestamp 0 keeps
the original value 5. -/
theorem c7_idempotent_witness :
    ((0 : Nat), (some (5 : ℚ))).2 = some 5 :=
  c7_idempotent_on_grid [(0, 5), (1800, 7)] 900 (by decide) (0, some 5) (by decide) 5 (by decide)

/-- Registry row at latitude 0, longitude 60 (on the equator). -/
noncomputable def stB : StationRecord := ⟨"B", 0, 60⟩

/-- Registry row at latitude 60, longitude 0 — exactly the target point. -/
noncomputable def stA : StationRecord := ⟨"A", 60, 0⟩

/-- A squared sine is unchanged when the difference is flipped. -/
theorem sin_sq_flip (x y : ℝ) : Real.sin ((x - y) / 2) ^ 2 = Real.sin ((y - x) / 2) ^ 2 := by
  rw [show (x - y) / 2 = -((y - x) / 2) by ring, Real.sin_neg]
  ring

/-- The haversine distance from a point to itself is zero. -/
theorem haversine_self (lon lat : ℝ) : haversine lon lat lon lat = 0 := by
  simp [haversine]

/-- The haversine distance is symmetric in its two coordinate pairs. -/
theorem haversine_comm (lon1 lat1 lon2 lat2 : ℝ) :
    haversine lon1 lat1 lon2 lat2 = haversine lon2 lat2 lon1 lat1 := by
  rw [haversine, haversine, sin_sq_flip (deg2rad lat2) (deg2rad lat1),
    sin_sq_flip (deg2rad lon2) (deg2rad lon1),
    mul_comm (Real.cos (deg2rad lat1)) (Real.cos (deg2rad lat2))]

/-- The haversine distance between the equator point at longitude 60 and
the point at latitude 60 on the prime meridian is strictly positive. -/
theorem haversine_sixty_pos : 0 < haversine 60 0 0 60 := by
  have h60 : deg2rad 60 = Real.pi / 3 := by rw [deg2rad]; ring
  have h0 : deg2rad 0 = 0 := by rw [deg2rad]; ring
  rw [haversine, h60, h0]
  have e1 : (Real.pi / 3 - 0) / 2 = Real.pi / 6 := by ring
  have e2 : ((0 : ℝ) - Real.pi / 3) / 2 = -(Real.pi / 6) := by ring
  rw [e1, e2, Real.sin_neg, Real.cos_zero, Real.cos_pi_div_three, Real.sin_pi_div_six]
  have hval : ((1 : ℝ) / 2) ^ 2 + 1 * (1 / 2) * (-(1 / 2)) ^ 2 = 3 / 8 := by norm_num
  rw [hval]
  have h2 : 0 < Real.arcsin (Real.sqrt (3 / 8)) :=
    Real.arcsin_pos.mpr (Real.sqrt_pos.mpr (by norm_num))
  exact mul_pos (mul_pos (by norm_num) h2) (by norm_num)

/-- Claim C8: the haversine distance is symmetric and vanishes on equal
coordinate pairs. -/
theorem c8_haversine_symm_self :
    (∀ lon1 lat1 lon2 lat2 : ℝ,
        haversine lon1 lat1 lon2 lat2 = haversine lon2 lat2 lon1 lat1) ∧
      (∀ lon lat : ℝ, haversine lon lat lon lat = 0) :=
  ⟨haversine_comm, haversine_self⟩

/-- Claim C1 (code bug): `find_nearest_meteo_station` passes the registry
row's coordinates latitude-first into `haversine(lon1, lat1, ...)`, so the
minimised key is not the haversine distance to the target.  With the
target at longitude 0, latitude 60, the registry `[stB, stA]` makes the
code pick `stB` (its swapped key is 0) even though `stA` sits exactly at
the target while `stB` is strictly farther away. -/
theorem c1_nearest_not_minimal :
    find_nearest 0 60 [stB, stA] = some stB ∧
      haversine stA.lon stA.lat 0 60 < haversine stB.lon stB.lat 0 60 := by
  have hkB : stationKey 0 60 stB = 0 := haversine_self 0 60
  have hkA : stationKey 0 60 stA = haversine 60 0 0 60 := rfl
  constructor
  · have hnot : ¬ stationKey 0 60 stA < stationKey 0 60 stB := by
      rw [hkA, hkB]
      exact not_lt.mpr (le_of_lt haversine_sixty_pos)
    show some (idxminBy (stationKey 0 60) stB [stA]) = some stB
    rw [idxminBy, if_neg hnot, idxminBy]
  · show haversine 0 60 0 60 < haversine 60 0 0 60
    rw [haversine_self 0 60]
    exact haversine_sixty_pos
